import Mathlib

/-!
Shallow embedding of the Gemini meeting-minutes generator
(`gemini_node.py` and `gemini_app.py`).

Python dynamic values that can appear in a decoded JSON response are
modelled by `PyVal`; the Python operations `str()`, `str.strip()`, iteration, the
`dict.get` method and the `in` substring operator are modelled by
explicit functions.  The external Gemini API call (together with
`json.loads` on its reply) and the PDF/DOCX parsing libraries are
out-of-repository collaborators; each is abstracted by an
`Except`-valued oracle argument: `.error e` models a raised exception
with message `e`, `.ok v` models a successful result.  Code that can
raise is embedded with an `Except String` result type.
-/

/-- Model of a Python value as decoded from JSON (plus `bool`/`int`
scalars that the model could also emit).  Floats are not needed by any
claim and are omitted. -/
inductive PyVal where
  | vnone : PyVal
  | vbool : Bool → PyVal
  | vint : Int → PyVal
  | vstr : String → PyVal
  | vlist : List PyVal → PyVal
  | vdict : List (String × PyVal) → PyVal

/-- Whitespace test used by the Python method `str.strip()`. -/
def pyIsSpace (c : Char) : Bool := c.isWhitespace

/-- Strip leading whitespace from the left of a character list. -/
def lstripChars (l : List Char) : List Char := l.dropWhile pyIsSpace

/-- Strip trailing whitespace from the right of a character list. -/
def rstripChars (l : List Char) : List Char :=
  (l.reverse.dropWhile pyIsSpace).reverse

/-- Strip whitespace from both ends of a character list. -/
def stripChars (l : List Char) : List Char := rstripChars (lstripChars l)

/-- Model of Python `str.strip()` (no arguments): remove whitespace from
both ends. -/
def pyStrip (s : String) : String := String.mk (stripChars s.data)

/-- The single-quote character used by Python `repr` of strings. -/
def pyQuote : String := String.singleton (Char.ofNat 39)

/-- Comma-join used by container `repr`. -/
def pyJoinComma : List String → String
  | [] => ""
  | [x] => x
  | x :: xs => x ++ ", " ++ pyJoinComma xs

mutual

/-- Model of Python `repr`: used by `str()` on elements of containers.
String escaping subtleties of CPython `repr` are not modelled (no claim
exercises them); containers render with brackets/braces and `", "`. -/
def pyRepr : PyVal → String
  | PyVal.vnone => "None"
  | PyVal.vbool true => "True"
  | PyVal.vbool false => "False"
  | PyVal.vint n => toString n
  | PyVal.vstr s => pyQuote ++ s ++ pyQuote
  | PyVal.vlist xs => "[" ++ pyJoinComma (pyReprList xs) ++ "]"
  | PyVal.vdict kvs => "\x7b" ++ pyJoinComma (pyReprPairs kvs) ++ "\x7d"

/-- `repr` of each element of a list. -/
def pyReprList : List PyVal → List String
  | [] => []
  | x :: xs => pyRepr x :: pyReprList xs

/-- `repr` of each `key: value` pair of a dict. -/
def pyReprPairs : List (String × PyVal) → List String
  | [] => []
  | (k, v) :: kvs => (pyQuote ++ k ++ pyQuote ++ ": " ++ pyRepr v) :: pyReprPairs kvs

end

/-- Model of Python `str()`.  A string stringifies to itself; every
other value stringifies to its `repr`. -/
def pyStr : PyVal → String
  | PyVal.vstr s => s
  | v => pyRepr v

/-- Model of Python iteration `for x in v`.  Strings iterate over their
characters, lists over their elements, dicts over their keys; every
other value raises `TypeError`. -/
def pyIter : PyVal → Except String (List PyVal)
  | PyVal.vstr s => Except.ok (s.data.map (fun c => PyVal.vstr (String.singleton c)))
  | PyVal.vlist xs => Except.ok xs
  | PyVal.vdict kvs => Except.ok (kvs.map (fun kv => PyVal.vstr kv.1))
  | _ => Except.error "TypeError: object is not iterable"

/-- First-match lookup in the association-list model of a Python dict
(real dicts have unique keys, so first-match agrees with dict lookup). -/
def dictFind : List (String × PyVal) → String → Option PyVal
  | [], _ => none
  | (k, v) :: rest, key => if k = key then some v else dictFind rest key

/-- Model of Python `d.get(key, default)`. -/
def pyGet (m : List (String × PyVal)) (key : String) (dflt : PyVal) : PyVal :=
  (dictFind m key).getD dflt

/-- Model of Python `sep.join(xs)`. -/
def pyJoin (sep : String) : List String → String
  | [] => ""
  | [x] => x
  | x :: xs => x ++ sep ++ pyJoin sep xs

/-- Model of the Python substring operator `needle in hay`, checking at
each position of `hay` whether `needle` starts there. -/
def leadsWith : List Char → List Char → Bool
  | [], _ => true
  | _ :: _, [] => false
  | n :: ns, h :: hs => n == h && leadsWith ns hs

/-- Substring search over character lists (helper of `pyInStr`). -/
def findSub (n : List Char) : List Char → Bool
  | [] => leadsWith n []
  | c :: hs => leadsWith n (c :: hs) || findSub n hs

/-- Model of Python `needle in hay` for strings. -/
def pyInStr (needle hay : String) : Bool := findSub needle.data hay.data

/-- The five-field minutes record (`Dict[str, Any]` with the fixed
schema that `_clean_minutes` / `_create_fallback_minutes` produce). -/
structure MinutesRecord where
  summary : String
  participants : List String
  discussion_points : List String
  outcomes_or_decisions : List String
  next_steps : List String
deriving DecidableEq

/-- Embedding of `GeminiClient._create_fallback_minutes`. -/
def _create_fallback_minutes : MinutesRecord :=
  { summary := "Could not automatically generate minutes. Manual review required."
    participants := []
    discussion_points := []
    outcomes_or_decisions := []
    next_steps := [] }

/-- One list-field comprehension of `_clean_minutes`:
`[str(p).strip() for p in minutes.get(key, []) if str(p).strip()]`.
Iterating a non-iterable value raises, hence the `Except` result. -/
def cleanListField (m : List (String × PyVal)) (key : String) :
    Except String (List String) :=
  match pyIter (pyGet m key (PyVal.vlist [])) with
  | Except.error e => Except.error e
  | Except.ok xs =>
      Except.ok ((xs.map (fun p => pyStrip (pyStr p))).filter (fun s => decide (s ≠ "")))

/-- The summary expression of `_clean_minutes`:
`str(minutes.get("summary", "")).strip() or "No summary available."`. -/
def cleanSummaryField (m : List (String × PyVal)) : String :=
  if pyStrip (pyStr (pyGet m "summary" (PyVal.vstr ""))) = ""
  then "No summary available."
  else pyStrip (pyStr (pyGet m "summary" (PyVal.vstr "")))

/-- Embedding of `GeminiClient._clean_minutes` on a dict argument.  The
Python dict literal evaluates its five value expressions in order; the
summary expression cannot raise, so evaluating the four list fields in
order and attaching the summary afterwards is behaviourally faithful. -/
def _clean_minutes (m : List (String × PyVal)) : Except String MinutesRecord :=
  match cleanListField m "participants" with
  | Except.error e => Except.error e
  | Except.ok ps =>
      match cleanListField m "discussion_points" with
      | Except.error e => Except.error e
      | Except.ok dps =>
          match cleanListField m "outcomes_or_decisions" with
          | Except.error e => Except.error e
          | Except.ok ods =>
              match cleanListField m "next_steps" with
              | Except.error e => Except.error e
              | Except.ok ns =>
                  Except.ok { summary := cleanSummaryField m
                              participants := ps
                              discussion_points := dps
                              outcomes_or_decisions := ods
                              next_steps := ns }

/-- `_clean_minutes` applied to an arbitrary decoded JSON value: Python
calls `.get` on it, which raises `AttributeError` unless it is a dict. -/
def cleanMinutesVal : PyVal → Except String MinutesRecord
  | PyVal.vdict kvs => _clean_minutes kvs
  | _ => Except.error "AttributeError: object has no attribute get"

/-- Client state: the optional model handle and `last_error`
(`None` models Python `None`). -/
structure GeminiClientState where
  model : Option Unit
  last_error : Option String
deriving DecidableEq

/-- Model of Python `a or b` on an optional string `a` (Python treats
`None` and `""` as falsy). -/
def pyOrOpt (a : Option String) (b : Option String) : Option String :=
  match a with
  | some s => if s = "" then b else some s
  | none => b

/-- Model of `self.last_error or default` in `test_connection`. -/
def pyOrDefault (a : Option String) (d : String) : String :=
  match a with
  | some s => if s = "" then d else s
  | none => d

/-- Embedding of `GeminiClient.__init__`.  `apiKey` is the optional
`api_key` argument, `envKey` the value of the `GOOGLE_API_KEY`
environment variable, and `configureResult` the oracle for
`genai.configure` plus `genai.GenerativeModel` (which may raise). -/
def geminiInit (apiKey : Option String) (envKey : Option String)
    (configureResult : Except String Unit) : GeminiClientState :=
  match pyOrOpt apiKey envKey with
  | none => { model := none, last_error := some "GOOGLE_API_KEY is missing or not provided." }
  | some k =>
      if k = "" then
        { model := none, last_error := some "GOOGLE_API_KEY is missing or not provided." }
      else
        match configureResult with
        | Except.ok _ => { model := some (), last_error := none }
        | Except.error e =>
            { model := none, last_error := some ("Failed to configure Gemini client: " ++ e) }

/-- Embedding of `GeminiClient.test_connection`: a pure query of the
client state — no network argument exists in the model at all. -/
def test_connection (st : GeminiClientState) : Bool × String :=
  match st.model with
  | some _ => (true, "Gemini client configured successfully.")
  | none => (false, pyOrDefault st.last_error "Client could not be initialized.")

/-- The diagnostic suffix best-effort appended to `last_error` on
failure: `some d` when finish-reason/safety data could be extracted from
the response object, `none` otherwise (response unbound, or the nested
extraction itself raised and was swallowed). -/
def diagSuffix : Option String → String
  | some d => d
  | none => ""

/-- The `last_error` value written by the failure path of
`generate_meeting_minutes`. -/
def apiErrorMsg (e : String) (diag : Option String) : String :=
  "API call failed: " ++ e ++ diagSuffix diag

/-- Embedding of `GeminiClient.generate_meeting_minutes`.
`callResult` is the oracle for `self.model.generate_content` followed by
`json.loads(response.text)`: `.error e` models an exception anywhere in
that chain, `.ok v` the decoded JSON value.  The returned `Bool` records
whether a network call was attempted.  The prompt built from
`transcript` only flows into the abstracted network call. -/
def generate_meeting_minutes (st : GeminiClientState) (transcript : String)
    (callResult : Except String PyVal) (diag : Option String) :
    GeminiClientState × MinutesRecord × Bool :=
  match st.model with
  | none => (st, _create_fallback_minutes, false)
  | some _ =>
      match callResult with
      | Except.error e =>
          ({ model := st.model, last_error := some (apiErrorMsg e diag) },
           _create_fallback_minutes, true)
      | Except.ok v =>
          match cleanMinutesVal v with
          | Except.ok r => (st, r, true)
          | Except.error e =>
              ({ model := st.model, last_error := some (apiErrorMsg e diag) },
               _create_fallback_minutes, true)

/-- The five `(header, content)` pairs built by
`format_minutes_as_markdown` in `gemini_app.py`. -/
def mdSections (m : MinutesRecord) : List (String × String) :=
  [("## ✨ Summary", m.summary),
   ("## 👥 Participants", pyJoin "\n" (m.participants.map (fun p => "- " ++ p))),
   ("## 🗣️ Discussion Points", pyJoin "\n" (m.discussion_points.map (fun t => "- " ++ t))),
   ("## ✅ Outcomes or Decisions", pyJoin "\n" (m.outcomes_or_decisions.map (fun d => "- " ++ d))),
   ("## 🚀 Next Steps", pyJoin "\n" (m.next_steps.map (fun s => "- " ++ s)))]

/-- The sections actually emitted: Python keeps a section when its
content string is truthy (non-empty). -/
def emittedSections (m : MinutesRecord) : List (String × String) :=
  (mdSections m).filter (fun sec => decide (sec.2 ≠ ""))

/-- Embedding of `format_minutes_as_markdown`. -/
def format_minutes_as_markdown (m : MinutesRecord) : String :=
  pyJoin "\n\n" ((emittedSections m).map (fun sec => sec.1 ++ "\n" ++ sec.2))

/-- Embedding of the failure test in `gemini_app.main`:
`"Could not automatically generate minutes" in minutes.get("summary", "")`. -/
def failure_detected (m : MinutesRecord) : Bool :=
  pyInStr "Could not automatically generate minutes" m.summary

/-- Embedding of `extract_text_from_pdf`.  `parseResult` is the oracle
for `PdfReader(file)` plus `page.extract_text()` on each page: `.ok
pages` gives the extracted text of each page in order, `.error e` models
an exception anywhere inside the `try`. -/
def extract_text_from_pdf (parseResult : Except String (List String)) : String :=
  match parseResult with
  | Except.error _ => ""
  | Except.ok pages => pyJoin "\n\n" (pages.filter (fun t => decide (t ≠ "")))

/-- Embedding of `extract_text_from_docx`.  `parseResult` is the oracle
for `docx.Document(file)`: `.ok paras` gives `p.text` for each paragraph
in order. -/
def extract_text_from_docx (parseResult : Except String (List String)) : String :=
  match parseResult with
  | Except.error _ => ""
  | Except.ok paras => pyJoin "\n" (paras.filter (fun p => decide (pyStrip p ≠ "")))

/-- Spec-side rendering of the PDF contract, written to the wording
of the spec: concatenate the text of every page that yields non-empty text,
pages joined by a blank line. -/
def pdfJoinSpec : List String → String
  | [] => ""
  | p :: ps =>
      if p = "" then pdfJoinSpec ps
      else if pdfJoinSpec ps = "" then p
      else p ++ "\n\n" ++ pdfJoinSpec ps

/-- Spec-side rendering of the DOCX contract, written to the wording
of the spec: concatenate the text of every paragraph with non-empty trimmed
content, paragraphs joined by a single newline. -/
def docxJoinSpec : List String → String
  | [] => ""
  | p :: ps =>
      if pyStrip p = "" then docxJoinSpec ps
      else if docxJoinSpec ps = "" then p
      else p ++ "\n" ++ docxJoinSpec ps

/-- The four list fields of the response schema. -/
def listFieldKeys : List String :=
  ["participants", "discussion_points", "outcomes_or_decisions", "next_steps"]

/-- All five keys `_clean_minutes` reads. -/
def recordKeys : List String := "summary" :: listFieldKeys

/-- The five section headers of the markdown export, in their fixed
order. -/
def mdHeaders : List String :=
  ["## ✨ Summary", "## 👥 Participants", "## 🗣️ Discussion Points",
   "## ✅ Outcomes or Decisions", "## 🚀 Next Steps"]

/-- What `_clean_minutes` guarantees for one list field: every stored
entry is non-empty and already trimmed, a missing key yields the empty
list, and the stored list is exactly the order-preserving
stringify-trim-filter of the iterated source value. -/
def cleanedList (m : List (String × PyVal)) (key : String) (l : List String) : Prop :=
  (∀ x ∈ l, x ≠ "" ∧ pyStrip x = x) ∧
  (dictFind m key = none → l = []) ∧
  ∃ src, pyIter (pyGet m key (PyVal.vlist [])) = Except.ok src ∧
    l = (src.map (fun p => pyStrip (pyStr p))).filter (fun s => decide (s ≠ ""))

/-- The failure condition of `generate_meeting_minutes`: the remote
call/decoding raised, or it produced a value on which `_clean_minutes`
raises. -/
def callFails (c : Except String PyVal) : Prop :=
  ∀ v, c = Except.ok v → ∃ e, cleanMinutesVal v = Except.error e

/-! ### Whitespace-stripping lemmas -/

theorem lstrip_idem (l : List Char) : lstripChars (lstripChars l) = lstripChars l :=
  List.dropWhile_idempotent pyIsSpace l

theorem rstrip_idem (l : List Char) : rstripChars (rstripChars l) = rstripChars l := by
  unfold rstripChars
  rw [List.reverse_reverse, List.dropWhile_idempotent]

theorem lstrip_eq_nil_iff (l : List Char) :
    lstripChars l = [] ↔ ∀ c ∈ l, pyIsSpace c := by
  unfold lstripChars
  simp [List.dropWhile_eq_nil_iff]

theorem rstrip_eq_nil_iff (l : List Char) :
    rstripChars l = [] ↔ ∀ c ∈ l, pyIsSpace c := by
  unfold rstripChars
  simp [List.dropWhile_eq_nil_iff]

theorem rstrip_cons (x : Char) (xs : List Char) :
    rstripChars (x :: xs) =
      if pyIsSpace x ∧ rstripChars xs = [] then [] else x :: rstripChars xs := by
  unfold rstripChars
  rw [show (x :: xs).reverse = xs.reverse ++ [x] by simp]
  rw [List.dropWhile_append]
  by_cases h : (List.dropWhile pyIsSpace xs.reverse).isEmpty = true
  · have hnil : List.dropWhile pyIsSpace xs.reverse = [] := by
      simpa [List.isEmpty_iff] using h
    by_cases hpx : pyIsSpace x
    · simp [h, hnil, List.dropWhile_cons, hpx]
    · simp [h, hnil, List.dropWhile_cons, hpx]
  · have hne : List.dropWhile pyIsSpace xs.reverse ≠ [] := by
      simpa [List.isEmpty_iff] using h
    simp [h, hne]

theorem lstrip_rstrip_comm (l : List Char) :
    lstripChars (rstripChars l) = rstripChars (lstripChars l) := by
  induction l with
  | nil => rfl
  | cons x xs ih =>
    by_cases hpx : pyIsSpace x
    · by_cases hz : rstripChars xs = []
      · have hall : ∀ c ∈ xs, pyIsSpace c := (rstrip_eq_nil_iff xs).mp hz
        have hl : lstripChars xs = [] := (lstrip_eq_nil_iff xs).mpr hall
        rw [rstrip_cons]
        simp only [hpx, hz, and_self, if_true]
        rw [show lstripChars (x :: xs) = lstripChars xs by
          simp [lstripChars, List.dropWhile_cons, hpx]]
        rw [hl]
        rfl
      · rw [rstrip_cons]
        simp only [hpx, hz, and_false, if_false]
        rw [show lstripChars (x :: rstripChars xs) = lstripChars (rstripChars xs) by
          simp [lstripChars, List.dropWhile_cons, hpx]]
        rw [show lstripChars (x :: xs) = lstripChars xs by
          simp [lstripChars, List.dropWhile_cons, hpx]]
        exact ih
    · have hlx : lstripChars (x :: xs) = x :: xs := by
        simp [lstripChars, List.dropWhile_cons, hpx]
      have hrc : rstripChars (x :: xs) = x :: rstripChars xs := by
        rw [rstrip_cons]; simp [hpx]
      rw [hlx, hrc]
      simp [lstripChars, List.dropWhile_cons, hpx]

theorem strip_idem (l : List Char) : stripChars (stripChars l) = stripChars l := by
  unfold stripChars
  rw [lstrip_rstrip_comm (lstripChars l), rstrip_idem, lstrip_idem]

theorem pyStrip_idem (s : String) : pyStrip (pyStrip s) = pyStrip s := by
  show String.mk (stripChars (String.mk (stripChars s.data)).data) = _
  rw [show (String.mk (stripChars s.data)).data = stripChars s.data from rfl, strip_idem]
  rfl

/-! ### String and join lemmas -/

theorem str_data_empty_iff (a : String) : a = "" ↔ a.data = [] := by
  constructor
  · intro h; rw [h]
  · intro h; exact String.ext h

theorem str_append_ne (a b : String) (h : a ≠ "") : a ++ b ≠ "" := by
  intro hab
  apply h
  have hd : (a ++ b).data = [] := (str_data_empty_iff _).mp hab
  rw [String.data_append] at hd
  exact (str_data_empty_iff a).mpr (List.append_eq_nil.mp hd).1

theorem pyJoin_ne (sep : String) (l : List String)
    (h1 : ∀ x ∈ l, x ≠ "") (h2 : l ≠ []) : pyJoin sep l ≠ "" := by
  match l with
  | [] => exact absurd rfl h2
  | [x] => exact h1 x (by simp)
  | x :: y :: xs =>
      show x ++ sep ++ pyJoin sep (y :: xs) ≠ ""
      exact str_append_ne _ _ (str_append_ne _ _ (h1 x (by simp)))

theorem pyStrip_empty : pyStrip "" = "" := rfl

theorem pdfJoinSpec_eq (l : List String) :
    pdfJoinSpec l = pyJoin "\n\n" (l.filter (fun s => decide (s ≠ ""))) := by
  induction l with
  | nil => rfl
  | cons p ps ih =>
    by_cases hp : p = ""
    · rw [pdfJoinSpec, if_pos hp, List.filter_cons,
          if_neg (by simp [hp])]
      exact ih
    · rw [pdfJoinSpec, if_neg hp, List.filter_cons,
          if_pos (show decide (p ≠ "") = true from decide_eq_true hp)]
      cases hrest : ps.filter (fun s => decide (s ≠ "")) with
      | nil =>
          rw [hrest] at ih
          rw [if_pos (by rw [ih]; rfl)]
          rfl
      | cons r rs =>
          have hne : pyJoin "\n\n" (r :: rs) ≠ "" := by
            apply pyJoin_ne
            · intro x hx
              have hxf : x ∈ ps.filter (fun s => decide (s ≠ "")) := by
                rw [hrest]; exact hx
              exact of_decide_eq_true (List.mem_filter.mp hxf).2
            · simp
          rw [hrest] at ih
          rw [if_neg (by rw [ih]; exact hne), ih]
          rfl

theorem ne_empty_of_strip_ne (x : String) (h : pyStrip x ≠ "") : x ≠ "" := by
  intro hx
  rw [hx] at h
  exact h pyStrip_empty

theorem docxJoinSpec_eq (l : List String) :
    docxJoinSpec l = pyJoin "\n" (l.filter (fun p => decide (pyStrip p ≠ ""))) := by
  induction l with
  | nil => rfl
  | cons p ps ih =>
    by_cases hp : pyStrip p = ""
    · rw [docxJoinSpec, if_pos hp, List.filter_cons,
          if_neg (by simp [hp])]
      exact ih
    · rw [docxJoinSpec, if_neg hp, List.filter_cons,
          if_pos (show decide (pyStrip p ≠ "") = true from decide_eq_true hp)]
      cases hrest : ps.filter (fun s => decide (pyStrip s ≠ "")) with
      | nil =>
          rw [hrest] at ih
          rw [if_pos (by rw [ih]; rfl)]
          rfl
      | cons r rs =>
          have hne : pyJoin "\n" (r :: rs) ≠ "" := by
            apply pyJoin_ne
            · intro x hx
              have hxf : x ∈ ps.filter (fun s => decide (pyStrip s ≠ "")) := by
                rw [hrest]; exact hx
              exact ne_empty_of_strip_ne x
                (of_decide_eq_true (List.mem_filter.mp hxf).2)
            · simp
          rw [hrest] at ih
          rw [if_neg (by rw [ih]; exact hne), ih]
          rfl

/-! ### Substring-search correctness -/

theorem leadsWith_iff (n : List Char) : ∀ h : List Char,
    leadsWith n h = true ↔ ∃ t, h = n ++ t := by
  induction n with
  | nil => intro h; simp [leadsWith]
  | cons a ns ih =>
    intro h
    cases h with
    | nil => simp [leadsWith]
    | cons b hs =>
        rw [leadsWith, Bool.and_eq_true, beq_iff_eq, ih hs]
        constructor
        · rintro ⟨rfl, t, rfl⟩
          exact ⟨t, rfl⟩
        · rintro ⟨t, het⟩
          injection het with h1 h2
          exact ⟨h1.symm, t, h2⟩

theorem findSub_iff (n : List Char) : ∀ h : List Char,
    findSub n h = true ↔ ∃ pre post, h = pre ++ n ++ post := by
  intro h
  induction h with
  | nil =>
      rw [findSub, leadsWith_iff]
      constructor
      · rintro ⟨t, ht⟩
        exact ⟨[], t, by simpa using ht⟩
      · rintro ⟨pre, post, hp⟩
        have := hp.symm
        rw [List.append_assoc] at this
        rcases List.append_eq_nil.mp this with ⟨h1, h2⟩
        rcases List.append_eq_nil.mp h2 with ⟨h3, h4⟩
        exact ⟨[], by simp [h3]⟩
  | cons c hs ih =>
      rw [findSub, Bool.or_eq_true, leadsWith_iff, ih]
      constructor
      · rintro (⟨t, ht⟩ | ⟨pre, post, hp⟩)
        · exact ⟨[], t, by simpa using ht⟩
        · exact ⟨c :: pre, post, by simp [hp]⟩
      · rintro ⟨pre, post, hp⟩
        cases pre with
        | nil => exact Or.inl ⟨post, by simpa using hp⟩
        | cons d pres =>
            injection hp with h1 h2
            exact Or.inr ⟨pres, post, h2⟩

theorem pyInStr_iff (needle hay : String) :
    pyInStr needle hay = true ↔ ∃ pre post : String, hay = pre ++ needle ++ post := by
  rw [pyInStr, findSub_iff]
  constructor
  · rintro ⟨p, t, hpt⟩
    refine ⟨String.mk p, String.mk t, String.ext ?_⟩
    rw [String.data_append, String.data_append]
    exact hpt
  · rintro ⟨pre, post, hp⟩
    refine ⟨pre.data, post.data, ?_⟩
    rw [hp, String.data_append, String.data_append]

/-! ### Dict lookup and filtering -/

theorem dictFind_filter_mem (m : List (String × PyVal)) (keys : List String)
    (key : String) (hk : key ∈ keys) :
    dictFind (m.filter (fun kv => decide (kv.1 ∈ keys))) key = dictFind m key := by
  induction m with
  | nil => rfl
  | cons kv rest ih =>
    obtain ⟨k, v⟩ := kv
    by_cases hmem : k ∈ keys
    · rw [List.filter_cons, if_pos (decide_eq_true hmem)]
      by_cases he : k = key
      · rw [dictFind, if_pos he, dictFind, if_pos he]
      · rw [dictFind, if_neg he, dictFind, if_neg he]
        exact ih
    · have hne : k ≠ key := fun h => hmem (h ▸ hk)
      rw [List.filter_cons, if_neg (by simpa using hmem), dictFind, if_neg hne]
      exact ih

/-! ### Cleaning lemmas -/

theorem cleanListField_ok {m : List (String × PyVal)} {key : String} {l : List String}
    (h : cleanListField m key = Except.ok l) :
    ∃ src, pyIter (pyGet m key (PyVal.vlist [])) = Except.ok src ∧
      l = (src.map (fun p => pyStrip (pyStr p))).filter (fun s => decide (s ≠ "")) := by
  unfold cleanListField at h
  cases hit : pyIter (pyGet m key (PyVal.vlist [])) with
  | error e => rw [hit] at h; cases h
  | ok xs =>
      rw [hit] at h
      exact ⟨xs, rfl, (Except.ok.inj h).symm⟩

theorem mem_cleanListField {m : List (String × PyVal)} {key : String} {l : List String}
    (h : cleanListField m key = Except.ok l) :
    ∀ x ∈ l, x ≠ "" ∧ pyStrip x = x := by
  obtain ⟨src, _, rfl⟩ := cleanListField_ok h
  intro x hx
  obtain ⟨hx1, hx2⟩ := List.mem_filter.mp hx
  refine ⟨of_decide_eq_true hx2, ?_⟩
  obtain ⟨p, _, rfl⟩ := List.mem_map.mp hx1
  exact pyStrip_idem _

theorem cleanListField_missing {m : List (String × PyVal)} {key : String}
    (h : dictFind m key = none) : cleanListField m key = Except.ok [] := by
  unfold cleanListField pyGet
  rw [h]
  rfl

theorem cleanListField_isOk {m : List (String × PyVal)} {key : String}
    (h : ∀ v, dictFind m key = some v → ∃ xs, pyIter v = Except.ok xs) :
    ∃ l, cleanListField m key = Except.ok l := by
  unfold cleanListField pyGet
  cases hf : dictFind m key with
  | none => exact ⟨[], rfl⟩
  | some v =>
      obtain ⟨xs, hxs⟩ := h v hf
      rw [show (some v).getD (PyVal.vlist []) = v from rfl, hxs]
      exact ⟨_, rfl⟩

theorem clean_minutes_ok {m : List (String × PyVal)} {r : MinutesRecord}
    (h : _clean_minutes m = Except.ok r) :
    cleanListField m "participants" = Except.ok r.participants ∧
    cleanListField m "discussion_points" = Except.ok r.discussion_points ∧
    cleanListField m "outcomes_or_decisions" = Except.ok r.outcomes_or_decisions ∧
    cleanListField m "next_steps" = Except.ok r.next_steps ∧
    r.summary = cleanSummaryField m := by
  unfold _clean_minutes at h
  cases h1 : cleanListField m "participants" with
  | error e => rw [h1] at h; cases h
  | ok ps =>
  rw [h1] at h
  cases h2 : cleanListField m "discussion_points" with
  | error e => rw [h2] at h; cases h
  | ok dps =>
  rw [h2] at h
  cases h3 : cleanListField m "outcomes_or_decisions" with
  | error e => rw [h3] at h; cases h
  | ok ods =>
  rw [h3] at h
  cases h4 : cleanListField m "next_steps" with
  | error e => rw [h4] at h; cases h
  | ok ns =>
  rw [h4] at h
  have hr := Except.ok.inj h
  subst hr
  exact ⟨rfl, rfl, rfl, rfl, rfl⟩

theorem cleanSummaryField_ne (m : List (String × PyVal)) : cleanSummaryField m ≠ "" := by
  unfold cleanSummaryField
  by_cases hs : pyStrip (pyStr (pyGet m "summary" (PyVal.vstr ""))) = ""
  · rw [if_pos hs]; decide
  · rw [if_neg hs]; exact hs

theorem pyGet_filter_mem (m : List (String × PyVal)) (key : String) (dflt : PyVal)
    (hk : key ∈ recordKeys) :
    pyGet (m.filter (fun kv => decide (kv.1 ∈ recordKeys))) key dflt = pyGet m key dflt := by
  unfold pyGet
  rw [dictFind_filter_mem m recordKeys key hk]

theorem clean_minutes_congr (m m' : List (String × PyVal))
    (hp : ∀ key ∈ recordKeys, ∀ dflt, pyGet m key dflt = pyGet m' key dflt) :
    _clean_minutes m = _clean_minutes m' := by
  have hs : cleanSummaryField m = cleanSummaryField m' := by
    unfold cleanSummaryField
    rw [hp "summary" (by simp [recordKeys]) (PyVal.vstr "")]
  have hl : ∀ key ∈ listFieldKeys, cleanListField m key = cleanListField m' key := by
    intro key hk
    unfold cleanListField
    rw [hp key (by simp [recordKeys, hk]) (PyVal.vlist [])]
  unfold _clean_minutes
  rw [hl "participants" (by simp [listFieldKeys]),
      hl "discussion_points" (by simp [listFieldKeys]),
      hl "outcomes_or_decisions" (by simp [listFieldKeys]),
      hl "next_steps" (by simp [listFieldKeys]), hs]

/-! ### Claim theorems -/

/-- C1 counterexample: `Clean` is not total — a wrong-typed
(non-iterable) value in a list field raises `TypeError` in the list
comprehension, so `_clean_minutes {"participants": 5}` raises. -/
theorem clean_raises_counterexample :
    (_clean_minutes [("participants", PyVal.vint 5)]).isOk = false := rfl

/-- C1 (amended): `Clean` never raises on any raw map whose four list
fields, where present, hold iterable values (lists, strings or dicts);
wrong-typed values are coerced to string by the cleaning expressions and
extra keys are ignored (the result only depends on the five record
keys). -/
theorem clean_total_amended (m : List (String × PyVal))
    (h : ∀ key ∈ listFieldKeys, ∀ v, dictFind m key = some v →
      ∃ xs, pyIter v = Except.ok xs) :
    (∃ r, _clean_minutes m = Except.ok r) ∧
    _clean_minutes m = _clean_minutes (m.filter (fun kv => decide (kv.1 ∈ recordKeys))) := by
  constructor
  · obtain ⟨ps, h1⟩ := cleanListField_isOk (h "participants" (by simp [listFieldKeys]))
    obtain ⟨dps, h2⟩ := cleanListField_isOk (h "discussion_points" (by simp [listFieldKeys]))
    obtain ⟨ods, h3⟩ := cleanListField_isOk (h "outcomes_or_decisions" (by simp [listFieldKeys]))
    obtain ⟨ns, h4⟩ := cleanListField_isOk (h "next_steps" (by simp [listFieldKeys]))
    unfold _clean_minutes
    rw [h1, h2, h3, h4]
    exact ⟨_, rfl⟩
  · exact clean_minutes_congr m _
      (fun key hk dflt => (pyGet_filter_mem m key dflt hk).symm)

/-- C1 witness for `clean_total_amended` at a concrete map with a
wrong-typed summary (an int), a wrong-typed but iterable list field (a
string, which Python iterates character-wise) and an extra key. -/
theorem clean_total_amended_witness :
    (∃ r, _clean_minutes
        [("summary", PyVal.vint 7), ("participants", PyVal.vstr "ab"),
         ("bogus", PyVal.vnone)] = Except.ok r) ∧
    _clean_minutes
        [("summary", PyVal.vint 7), ("participants", PyVal.vstr "ab"),
         ("bogus", PyVal.vnone)] =
      _clean_minutes
        ([("summary", PyVal.vint 7), ("participants", PyVal.vstr "ab"),
          ("bogus", PyVal.vnone)].filter (fun kv => decide (kv.1 ∈ recordKeys))) := by
  apply clean_total_amended
  intro key hk v hv
  simp only [listFieldKeys, List.mem_cons, List.mem_singleton, List.not_mem_nil, or_false] at hk
  rcases hk with rfl | rfl | rfl | rfl
  · rw [show dictFind [("summary", PyVal.vint 7), ("participants", PyVal.vstr "ab"),
        ("bogus", PyVal.vnone)] "participants" = some (PyVal.vstr "ab") from rfl] at hv
    cases hv
    exact ⟨_, rfl⟩
  · rw [show dictFind [("summary", PyVal.vint 7), ("participants", PyVal.vstr "ab"),
        ("bogus", PyVal.vnone)] "discussion_points" = none from rfl] at hv
    cases hv
  · rw [show dictFind [("summary", PyVal.vint 7), ("participants", PyVal.vstr "ab"),
        ("bogus", PyVal.vnone)] "outcomes_or_decisions" = none from rfl] at hv
    cases hv
  · rw [show dictFind [("summary", PyVal.vint 7), ("participants", PyVal.vstr "ab"),
        ("bogus", PyVal.vnone)] "next_steps" = none from rfl] at hv
    cases hv

/-- C2: whenever `Clean` returns a record, that record satisfies the
data-model invariants: the summary is non-empty (the literal
`"No summary available."` is substituted exactly when the stringified,
trimmed source is empty), every stored list entry is non-empty and
trimmed, the stored lists are the order-preserving
stringify-trim-filter of their sources, and a missing field yields the
empty list. -/
theorem clean_invariants (m : List (String × PyVal)) (r : MinutesRecord)
    (h : _clean_minutes m = Except.ok r) :
    r.summary ≠ "" ∧
    (pyStrip (pyStr (pyGet m "summary" (PyVal.vstr ""))) = "" →
      r.summary = "No summary available.") ∧
    (pyStrip (pyStr (pyGet m "summary" (PyVal.vstr ""))) ≠ "" →
      r.summary = pyStrip (pyStr (pyGet m "summary" (PyVal.vstr "")))) ∧
    cleanedList m "participants" r.participants ∧
    cleanedList m "discussion_points" r.discussion_points ∧
    cleanedList m "outcomes_or_decisions" r.outcomes_or_decisions ∧
    cleanedList m "next_steps" r.next_steps := by
  obtain ⟨h1, h2, h3, h4, hs⟩ := clean_minutes_ok h
  have mkClean : ∀ key l, cleanListField m key = Except.ok l → cleanedList m key l := by
    intro key l hl
    refine ⟨mem_cleanListField hl, ?_, cleanListField_ok hl⟩
    intro hmiss
    have := @cleanListField_missing m key hmiss
    rw [hl] at this
    exact Except.ok.inj this
  refine ⟨?_, ?_, ?_, mkClean _ _ h1, mkClean _ _ h2, mkClean _ _ h3, mkClean _ _ h4⟩
  · rw [hs]; exact cleanSummaryField_ne m
  · intro hempty
    rw [hs]
    unfold cleanSummaryField
    rw [if_pos hempty]
  · intro hne
    rw [hs]
    unfold cleanSummaryField
    rw [if_neg hne]

/-- C2 witness for `clean_invariants` at the concrete map from §8 of the
spec (with an extra key added), checking the participants field. -/
theorem clean_invariants_witness :
    cleanedList
      [("summary", PyVal.vstr "  Team aligned on Q3 plan.  "),
       ("participants", PyVal.vlist [PyVal.vstr "  Ana (PM)  ", PyVal.vstr "", PyVal.vstr "Leo"]),
       ("extra", PyVal.vint 3)]
      "participants" ["Ana (PM)", "Leo"] :=
  (clean_invariants
    [("summary", PyVal.vstr "  Team aligned on Q3 plan.  "),
     ("participants", PyVal.vlist [PyVal.vstr "  Ana (PM)  ", PyVal.vstr "", PyVal.vstr "Leo"]),
     ("extra", PyVal.vint 3)]
    { summary := "Team aligned on Q3 plan.", participants := ["Ana (PM)", "Leo"],
      discussion_points := [], outcomes_or_decisions := [], next_steps := [] }
    rfl).2.2.2.1

/-- C10: stringification happens before the emptiness test in `Clean`:
a JSON-null summary is stored as the string `"None"` (not replaced by
the placeholder), and a null list element is kept as the entry `"None"`
rather than dropped. -/
theorem clean_stringifies_null :
    _clean_minutes [("summary", PyVal.vnone)] =
      Except.ok { summary := "None", participants := [], discussion_points := [],
                  outcomes_or_decisions := [], next_steps := [] } ∧
    _clean_minutes [("participants", PyVal.vlist [PyVal.vnone])] =
      Except.ok { summary := "No summary available.", participants := ["None"],
                  discussion_points := [], outcomes_or_decisions := [], next_steps := [] } :=
  ⟨rfl, rfl⟩

/-- Decomposition of the failure message: it starts with the literal
`"API call failed"`. -/
theorem apiErrorMsg_split (e : String) (d : Option String) :
    apiErrorMsg e d = "API call failed" ++ (": " ++ e ++ diagSuffix d) := by
  have h : ("API call failed: " : String) = "API call failed" ++ ": " := by decide
  rw [apiErrorMsg, h]
  apply String.ext
  simp [String.data_append, List.append_assoc]

theorem apiErrorMsg_ne (e : String) (d : Option String) : apiErrorMsg e d ≠ "" := by
  unfold apiErrorMsg
  exact str_append_ne _ _ (str_append_ne _ _ (by decide))

theorem str_empty_append (s : String) : "" ++ s = s := by
  apply String.ext
  rw [String.data_append]
  rfl

/-- C3: if the remote call or decoding fails in any way (exception,
non-JSON body, a decoded value `_clean_minutes` chokes on),
`generate_meeting_minutes` returns the fallback record without raising,
and afterwards `last_error` is non-empty and contains the literal
substring `"API call failed"` (in the sense of the Python `in`
operator). -/
theorem generate_failure_fallback (st : GeminiClientState) (transcript : String)
    (c : Except String PyVal) (d : Option String)
    (hm : st.model = some ()) (hf : callFails c) :
    (generate_meeting_minutes st transcript c d).2.1 = _create_fallback_minutes ∧
    ∃ msg, (generate_meeting_minutes st transcript c d).1.last_error = some msg ∧
      msg ≠ "" ∧ pyInStr "API call failed" msg = true := by
  obtain ⟨mo, le⟩ := st
  have hmo : mo = some () := hm
  subst hmo
  have hmsg : ∀ e' d', pyInStr "API call failed" (apiErrorMsg e' d') = true := by
    intro e' d'
    rw [pyInStr_iff]
    exact ⟨"", ": " ++ e' ++ diagSuffix d', by
      rw [apiErrorMsg_split, str_empty_append]⟩
  cases c with
  | error e =>
      exact ⟨rfl, apiErrorMsg e d, rfl, apiErrorMsg_ne e d, hmsg e d⟩
  | ok v =>
      obtain ⟨e, he⟩ := hf v rfl
      refine ⟨?_, apiErrorMsg e d, ?_, apiErrorMsg_ne e d, hmsg e d⟩
      · show (match cleanMinutesVal v with
          | Except.ok r => (⟨some (), le⟩, r, true)
          | Except.error e' =>
              (⟨some (), some (apiErrorMsg e' d)⟩, _create_fallback_minutes, true) :
            GeminiClientState × MinutesRecord × Bool).2.1 = _create_fallback_minutes
        rw [he]
      · show (match cleanMinutesVal v with
          | Except.ok r => (⟨some (), le⟩, r, true)
          | Except.error e' =>
              (⟨some (), some (apiErrorMsg e' d)⟩, _create_fallback_minutes, true) :
            GeminiClientState × MinutesRecord × Bool).1.last_error = some (apiErrorMsg e d)
        rw [he]

/-- C3 witness for `generate_failure_fallback` at a concrete initialized
state and a failing call. -/
theorem generate_failure_fallback_witness :
    (generate_meeting_minutes ⟨some (), none⟩ "hello" (Except.error "boom") none).2.1 =
      _create_fallback_minutes ∧
    ∃ msg, (generate_meeting_minutes ⟨some (), none⟩ "hello"
        (Except.error "boom") none).1.last_error = some msg ∧
      msg ≠ "" ∧ pyInStr "API call failed" msg = true :=
  generate_failure_fallback ⟨some (), none⟩ "hello" (Except.error "boom") none rfl
    (fun v hv => by cases hv)

/-- C4: with an uninitialized client handle, `generate_meeting_minutes`
returns exactly the fallback record for every transcript, leaves the
state (in particular `last_error`) unchanged, and attempts no network
call. -/
theorem generate_uninitialized (st : GeminiClientState) (transcript : String)
    (c : Except String PyVal) (d : Option String) (h : st.model = none) :
    generate_meeting_minutes st transcript c d = (st, _create_fallback_minutes, false) := by
  obtain ⟨mo, le⟩ := st
  have hmo : mo = none := h
  subst hmo
  rfl

/-- C4 witness for `generate_uninitialized` on the empty transcript. -/
theorem generate_uninitialized_witness :
    generate_meeting_minutes ⟨none, some "GOOGLE_API_KEY is missing or not provided."⟩ ""
        (Except.ok (PyVal.vdict [])) none =
      (⟨none, some "GOOGLE_API_KEY is missing or not provided."⟩,
       _create_fallback_minutes, false) :=
  generate_uninitialized _ "" _ none rfl

/-- C9: a successful generation call returns the cleaned record and the
state unchanged — `last_error` is never reset on success, so after a
failed call followed by a successful one the stale failure message is
still stored. -/
theorem generate_success_frame (st : GeminiClientState)
    (t1 t2 : String) (v : PyVal) (r : MinutesRecord)
    (e : String) (d1 d2 : Option String)
    (hm : st.model = some ()) (hc : cleanMinutesVal v = Except.ok r) :
    generate_meeting_minutes st t1 (Except.ok v) d1 = (st, r, true) ∧
    (generate_meeting_minutes
        ((generate_meeting_minutes st t2 (Except.error e) d2).1)
        t1 (Except.ok v) d1).1.last_error = some (apiErrorMsg e d2) := by
  obtain ⟨mo, le⟩ := st
  have hmo : mo = some () := hm
  subst hmo
  constructor
  · show (match cleanMinutesVal v with
      | Except.ok r' => ((⟨some (), le⟩ : GeminiClientState), r', true)
      | Except.error e' =>
          (⟨some (), some (apiErrorMsg e' d1)⟩, _create_fallback_minutes, true) :
        GeminiClientState × MinutesRecord × Bool) = (⟨some (), le⟩, r, true)
    rw [hc]
  · show (match cleanMinutesVal v with
      | Except.ok r' => ((⟨some (), some (apiErrorMsg e d2)⟩ : GeminiClientState), r', true)
      | Except.error e' =>
          (⟨some (), some (apiErrorMsg e' d1)⟩, _create_fallback_minutes, true) :
        GeminiClientState × MinutesRecord × Bool).1.last_error = some (apiErrorMsg e d2)
    rw [hc]

/-- C9 witness for `generate_success_frame` at a concrete state, a
concrete well-formed response and a preceding failure. -/
theorem generate_success_frame_witness :
    generate_meeting_minutes ⟨some (), none⟩ "t" (Except.ok (PyVal.vdict [])) none =
      (⟨some (), none⟩,
       { summary := "No summary available.", participants := [], discussion_points := [],
         outcomes_or_decisions := [], next_steps := [] }, true) ∧
    (generate_meeting_minutes
        ((generate_meeting_minutes ⟨some (), none⟩ "t0" (Except.error "boom") (some " | x")).1)
        "t" (Except.ok (PyVal.vdict [])) none).1.last_error =
      some (apiErrorMsg "boom" (some " | x")) :=
  generate_success_frame ⟨some (), none⟩ "t" "t0" (PyVal.vdict [])
    { summary := "No summary available.", participants := [], discussion_points := [],
      outcomes_or_decisions := [], next_steps := [] }
    "boom" none (some " | x") rfl rfl

/-- C5: the constructor is total; with no key argument and no
environment variable it leaves the handle uninitialized with
`last_error` exactly the missing-key message; `test_connection` is a
pure query of local state (it takes no network input at all), answering
`(true, ...)` exactly on an initialized handle and otherwise
`(false, last_error or the default message)`. -/
theorem init_and_test_connection :
    (∀ cfg, geminiInit none none cfg =
      { model := none, last_error := some "GOOGLE_API_KEY is missing or not provided." }) ∧
    (∀ st : GeminiClientState, st.model = some () →
      test_connection st = (true, "Gemini client configured successfully.")) ∧
    (∀ st : GeminiClientState, st.model = none →
      test_connection st =
        (false, pyOrDefault st.last_error "Client could not be initialized.")) := by
  refine ⟨fun cfg => rfl, ?_, ?_⟩
  · intro st h
    obtain ⟨mo, le⟩ := st
    have hmo : mo = some () := h
    subst hmo
    rfl
  · intro st h
    obtain ⟨mo, le⟩ := st
    have hmo : mo = none := h
    subst hmo
    rfl

/-- C5 witness for `init_and_test_connection`: a configured state tests
positive; the state constructed with no key at all tests negative with
the recorded error message. -/
theorem init_and_test_connection_witness :
    test_connection ⟨some (), none⟩ = (true, "Gemini client configured successfully.") ∧
    test_connection (geminiInit none none (Except.ok ())) =
      (false, "GOOGLE_API_KEY is missing or not provided.") := by
  constructor
  · exact init_and_test_connection.2.1 ⟨some (), none⟩ rfl
  · have h1 := init_and_test_connection.1 (Except.ok ())
    have h2 := init_and_test_connection.2.2 (geminiInit none none (Except.ok ()))
      (by rw [h1])
    rw [h2, h1]
    rfl

/-- C6: the markdown export emits the five sections in their fixed
order (the emitted headers form a sublist of the fixed header list),
omits every section whose content is empty (in particular the
Discussion Points section of a record with no discussion points), joins
the emitted `header\ncontent` blocks with a blank line, and renders a
record in which only the summary is populated as exactly the single
Summary section. -/
theorem markdown_fixed_sections (m : MinutesRecord) :
    ((emittedSections m).map Prod.fst).Sublist mdHeaders ∧
    (∀ sec ∈ emittedSections m, sec.2 ≠ "") ∧
    format_minutes_as_markdown m =
      pyJoin "\n\n" ((emittedSections m).map (fun sec => sec.1 ++ "\n" ++ sec.2)) ∧
    (m.discussion_points = [] →
      "## 🗣️ Discussion Points" ∉ (emittedSections m).map Prod.fst) ∧
    (m.participants = [] → m.discussion_points = [] → m.outcomes_or_decisions = [] →
      m.next_steps = [] → m.summary ≠ "" →
      format_minutes_as_markdown m = "## ✨ Summary" ++ "\n" ++ m.summary) := by
  refine ⟨?_, ?_, rfl, ?_, ?_⟩
  · have h1 : (emittedSections m).Sublist (mdSections m) := List.filter_sublist _
    have h2 := h1.map Prod.fst
    rw [show (mdSections m).map Prod.fst = mdHeaders from rfl] at h2
    exact h2
  · intro sec hsec
    exact of_decide_eq_true (List.mem_filter.mp hsec).2
  · intro hdp hmem
    obtain ⟨sec, hsec, hfst⟩ := List.mem_map.mp hmem
    obtain ⟨hin, hne⟩ := List.mem_filter.mp hsec
    have hne' : sec.2 ≠ "" := of_decide_eq_true hne
    simp only [mdSections, List.mem_cons, List.not_mem_nil, or_false] at hin
    rcases hin with rfl | rfl | rfl | rfl | rfl
    · exact absurd hfst (by simp)
    · exact absurd hfst (by simp)
    · rw [hdp] at hne'
      exact hne' rfl
    · exact absurd hfst (by simp)
    · exact absurd hfst (by simp)
  · intro hp hd ho hn hs
    unfold format_minutes_as_markdown emittedSections mdSections
    rw [hp, hd, ho, hn]
    rw [List.filter_cons, if_pos (decide_eq_true hs)]
    rfl

/-- C6 witness for `markdown_fixed_sections`: a record with empty
discussion points has no Discussion Points header, and a record with
only a summary renders as the single Summary section. -/
theorem markdown_fixed_sections_witness :
    "## 🗣️ Discussion Points" ∉
      (emittedSections
        { summary := "S", participants := ["Ana"], discussion_points := [],
          outcomes_or_decisions := ["Done"], next_steps := [] }).map Prod.fst ∧
    format_minutes_as_markdown
        { summary := "Hello", participants := [], discussion_points := [],
          outcomes_or_decisions := [], next_steps := [] } =
      "## ✨ Summary" ++ "\n" ++ "Hello" :=
  ⟨(markdown_fixed_sections
      { summary := "S", participants := ["Ana"], discussion_points := [],
        outcomes_or_decisions := ["Done"], next_steps := [] }).2.2.2.1 rfl,
   (markdown_fixed_sections
      { summary := "Hello", participants := [], discussion_points := [],
        outcomes_or_decisions := [], next_steps := [] }).2.2.2.2 rfl rfl rfl rfl
      (by decide)⟩

/-- C7 counterexample: the presentation layer does NOT test equality
against the full fallback literal — a summary equal to the bare prefix
`"Could not automatically generate minutes"` is treated as a failure
even though it differs from the literal, refuting the claimed
equivalence. -/
theorem failure_detection_counterexample :
    ¬ (failure_detected
        { summary := "Could not automatically generate minutes", participants := [],
          discussion_points := [], outcomes_or_decisions := [], next_steps := [] } = true ↔
       ({ summary := "Could not automatically generate minutes", participants := [],
          discussion_points := [], outcomes_or_decisions := [], next_steps := [] } :
         MinutesRecord).summary =
        "Could not automatically generate minutes. Manual review required.") := by
  intro h
  exact absurd (h.mp rfl) (by decide)

/-- C7 (amended): the sole success/failure signal is a substring test:
a record is treated as a failure if and only if its summary CONTAINS the
literal `"Could not automatically generate minutes"` (Python `in`); in
particular the fallback record is detected as a failure. -/
theorem failure_detection_contains :
    (∀ m : MinutesRecord, failure_detected m = true ↔
      ∃ pre post : String,
        m.summary = pre ++ "Could not automatically generate minutes" ++ post) ∧
    failure_detected _create_fallback_minutes = true :=
  ⟨fun m => pyInStr_iff "Could not automatically generate minutes" m.summary, rfl⟩

/-- C8: both extractors are total: any library-level failure yields the
empty string, and on success the PDF extractor returns the text of every
page with non-empty text joined by a blank line while the DOCX extractor
returns the text of every paragraph with non-empty trimmed content
joined by a single newline (stated against the spec-side renderings). -/
theorem extract_text_contract :
    (∀ e, extract_text_from_pdf (Except.error e) = "") ∧
    (∀ pages, extract_text_from_pdf (Except.ok pages) = pdfJoinSpec pages) ∧
    (∀ e, extract_text_from_docx (Except.error e) = "") ∧
    (∀ paras, extract_text_from_docx (Except.ok paras) = docxJoinSpec paras) := by
  refine ⟨fun e => rfl, fun pages => ?_, fun e => rfl, fun paras => ?_⟩
  · rw [pdfJoinSpec_eq]
    rfl
  · rw [docxJoinSpec_eq]
    rfl
